import Mathlib

/-!
Verification of the Tina IPC bridge and event pipeline.

This file gives a shallow embedding, in Lean 4, of the core of the Tina
repository: the SQLite-backed persistence store (crates/tina-db), the
line-protocol types and their JSON envelope (crates/tina-core), the worker
event pipeline (crates/tina-worker) and the engine process manager
(crates/tina-ipc).  Each definition is translated directly from the Rust
source; theorems at the end settle the specification claims against these
definitions.

Conventions of the embedding:
- SQLite tables become lists of row structures; one row structure per table,
  with the column names of crates/tina-db/src/schema.rs.
- The ambient wall-clock timestamp (chrono_timestamp in repository.rs) is
  passed explicitly as a parameter named now.
- SQL COALESCE on nullable columns becomes the coalesce function below.
- Fallible operations that the claims exercise are modelled with explicit
  success flags or Except values.
-/

/-! ## Persistence store (crates/tina-db)

Row types mirror the four tables of schema.rs.  The AUTOINCREMENT integer
primary key of contacts, groups and messages is not modelled: no repository
operation ever reads it, and row identity in the source goes through the
UNIQUE constraints, which the operations below consult directly.
-/

/-- Row of the accounts table (schema.rs). -/
structure AccountRow where
  id : String
  name : Option String
  phone_number : Option String
  auth_state : Option String
  created_at : Int
  updated_at : Int
deriving DecidableEq, Repr

/-- Row of the contacts table (schema.rs); unique on (account_id, jid). -/
structure ContactRow where
  account_id : String
  jid : String
  lid : Option String
  phone_number : Option String
  name : Option String
  notify_name : Option String
  verified_name : Option String
  img_url : Option String
  status : Option String
  is_local : Bool
  created_at : Int
  updated_at : Int
deriving DecidableEq, Repr

/-- Row of the groups table (schema.rs); unique on (account_id, jid). -/
structure GroupRow where
  account_id : String
  jid : String
  subject : Option String
  owner : Option String
  description : Option String
  participants_json : Option String
  created_at : Int
  updated_at : Int
deriving DecidableEq, Repr

/-- Row of the messages table (schema.rs); unique on (account_id, message_id). -/
structure MessageRow where
  account_id : String
  message_id : String
  chat_jid : String
  sender_jid : String
  content : Option String
  message_type : String
  timestamp : Int
  is_from_me : Bool
  raw_json : Option String
  created_at : Int
deriving DecidableEq, Repr

/-- The persistence store: the four tables of schema.rs as row lists. -/
structure Db where
  accounts : List AccountRow
  contacts : List ContactRow
  groups : List GroupRow
  messages : List MessageRow
deriving DecidableEq, Repr

/-- The empty store, as created by a fresh schema run. -/
def Db.empty : Db := { accounts := [], contacts := [], groups := [], messages := [] }

/-- SQL COALESCE(excluded.x, x) on a nullable column: a non-null incoming
value overwrites, a null incoming value keeps the stored one. -/
def coalesce (incoming stored : Option String) : Option String :=
  match incoming with
  | some v => some v
  | none => stored

/-- Key match for an accounts row (WHERE id = ?). -/
def accountKey (id : String) (a : AccountRow) : Bool := a.id == id

/-- Key match for a contacts row (the UNIQUE(account_id, jid) constraint). -/
def contactKey (account_id jid : String) (c : ContactRow) : Bool :=
  c.account_id == account_id && c.jid == jid

/-- Key match for a groups row (the UNIQUE(account_id, jid) constraint). -/
def groupKey (account_id jid : String) (g : GroupRow) : Bool :=
  g.account_id == account_id && g.jid == jid

/-- Key match for a messages row (the UNIQUE(account_id, message_id) constraint). -/
def messageKey (account_id message_id : String) (m : MessageRow) : Bool :=
  m.account_id == account_id && m.message_id == message_id

/-- TinaDb::create_account (repository.rs lines 44 to 59): INSERT with
ON CONFLICT(id) DO UPDATE SET name = excluded.name,
updated_at = excluded.updated_at.  Note that name is overwritten without
COALESCE, unlike the contact and group merges. -/
def create_account (db : Db) (id : String) (name : Option String) (now : Int) : Db :=
  if db.accounts.any (accountKey id) then
    { db with accounts := db.accounts.map fun a =>
        if accountKey id a then { a with name := name, updated_at := now } else a }
  else
    { db with accounts := db.accounts ++
        [{ id := id, name := name, phone_number := none, auth_state := none,
           created_at := now, updated_at := now }] }

/-- TinaDb::get_account (repository.rs): SELECT * FROM accounts WHERE id = ?,
as an optional lookup (fetch_one failure becomes none). -/
def get_account (db : Db) (id : String) : Option AccountRow :=
  db.accounts.find? (accountKey id)

/-- TinaDb::save_auth_state (repository.rs lines 75 to 86): UPDATE accounts
SET auth_state = ?, updated_at = ? WHERE id = ?.  A sqlx UPDATE that touches
zero rows still returns Ok, so the operation is total and returns the store. -/
def save_auth_state (db : Db) (account_id auth_state : String) (now : Int) : Db :=
  { db with accounts := db.accounts.map fun a =>
      if accountKey account_id a then { a with auth_state := some auth_state, updated_at := now }
      else a }

/-- TinaDb::upsert_contact (repository.rs lines 93 to 138): INSERT with
ON CONFLICT(account_id, jid) DO UPDATE where every nullable incoming field is
merged through COALESCE, while is_local and updated_at are overwritten. -/
def upsert_contact (db : Db) (account_id jid : String)
    (lid phone_number name notify_name verified_name img_url status : Option String)
    (is_local : Bool) (now : Int) : Db :=
  if db.contacts.any (contactKey account_id jid) then
    { db with contacts := db.contacts.map fun c =>
        if contactKey account_id jid c then
          { c with
            lid := coalesce lid c.lid,
            phone_number := coalesce phone_number c.phone_number,
            name := coalesce name c.name,
            notify_name := coalesce notify_name c.notify_name,
            verified_name := coalesce verified_name c.verified_name,
            img_url := coalesce img_url c.img_url,
            status := coalesce status c.status,
            is_local := is_local,
            updated_at := now }
        else c }
  else
    { db with contacts := db.contacts ++
        [{ account_id := account_id, jid := jid, lid := lid,
           phone_number := phone_number, name := name, notify_name := notify_name,
           verified_name := verified_name, img_url := img_url, status := status,
           is_local := is_local, created_at := now, updated_at := now }] }

/-- TinaDb::get_contact_by_jid (repository.rs): SELECT with fetch_optional. -/
def get_contact_by_jid (db : Db) (account_id jid : String) : Option ContactRow :=
  db.contacts.find? (contactKey account_id jid)

/-- TinaDb::upsert_group (repository.rs lines 159 to 192): INSERT with
ON CONFLICT(account_id, jid) DO UPDATE merging subject, owner, description and
participants_json through COALESCE. -/
def upsert_group (db : Db) (account_id jid : String)
    (subject owner description participants_json : Option String) (now : Int) : Db :=
  if db.groups.any (groupKey account_id jid) then
    { db with groups := db.groups.map fun g =>
        if groupKey account_id jid g then
          { g with
            subject := coalesce subject g.subject,
            owner := coalesce owner g.owner,
            description := coalesce description g.description,
            participants_json := coalesce participants_json g.participants_json,
            updated_at := now }
        else g }
  else
    { db with groups := db.groups ++
        [{ account_id := account_id, jid := jid, subject := subject, owner := owner,
           description := description, participants_json := participants_json,
           created_at := now, updated_at := now }] }

/-- TinaDb::get_group_by_jid (repository.rs): SELECT with fetch_optional. -/
def get_group_by_jid (db : Db) (account_id jid : String) : Option GroupRow :=
  db.groups.find? (groupKey account_id jid)

/-- TinaDb::insert_message (repository.rs lines 213 to 246): INSERT OR IGNORE,
a silent no-op when a row with the same (account_id, message_id) exists. -/
def insert_message (db : Db) (account_id message_id chat_jid sender_jid : String)
    (content : Option String) (message_type : String) (timestamp : Int)
    (is_from_me : Bool) (raw_json : Option String) (now : Int) : Db :=
  if db.messages.any (messageKey account_id message_id) then db
  else
    { db with messages := db.messages ++
        [{ account_id := account_id, message_id := message_id, chat_jid := chat_jid,
           sender_jid := sender_jid, content := content, message_type := message_type,
           timestamp := timestamp, is_from_me := is_from_me, raw_json := raw_json,
           created_at := now }] }

/-! ### Generic lemmas about keyed list updates -/

/-- Updating every row matched by p with a p-preserving function commutes with
the first-match lookup: the SQL pattern behind every ON CONFLICT DO UPDATE. -/
theorem find?_map_update {α : Type} (p : α → Bool) (f : α → α) (l : List α)
    (hp : ∀ a, p (f a) = p a) :
    (l.map fun a => if p a then f a else a).find? p = (l.find? p).map f := by
  induction l with
  | nil => rfl
  | cons a t ih =>
    by_cases hpa : p a = true
    · simp [hpa, hp, List.find?_cons]
    · have hpa' : p a = false := by simpa using hpa
      simp [hpa', hp, List.find?_cons, ih]

/-- A conditional row update leaves the table unchanged when no row matches. -/
theorem map_update_of_none {α : Type} (p : α → Bool) (f : α → α) (l : List α)
    (h : ∀ a ∈ l, p a = false) :
    (l.map fun a => if p a then f a else a) = l := by
  induction l with
  | nil => rfl
  | cons a t ih =>
    have ha := h a (List.mem_cons_self a t)
    simp [ha, ih fun x hx => h x (List.mem_cons_of_mem a hx)]

/-- A first-match lookup succeeding implies the row-existence test succeeds. -/
theorem any_of_find?_eq_some {α : Type} {p : α → Bool} {l : List α} {a : α}
    (h : l.find? p = some a) : l.any p = true :=
  List.any_eq_true.mpr ⟨a, List.mem_of_find?_eq_some h, List.find?_some h⟩

/-! ## Line protocol (crates/tina-core)

The envelope is one JSON object per line.  The embedding works on a JSON
value tree: IpcMessage.encode models serde_json serialization of IpcMessage
(with the id field and the serde(flatten) adjacently tagged content), and
IpcMessage.decode models deserialization, with the serde(untagged) union
trying Command before Event.  The newline framing of to_line and the trim of
from_line cancel at the string layer and are not re-modelled here.
-/

/-- JSON value tree, standing for serde_json::Value. -/
inductive Json where
  | null
  | bool (b : Bool)
  | num (n : Int)
  | str (s : String)
  | arr (elems : List Json)
  | obj (fields : List (String × Json))

/-- ContactData (tina-core/src/events.rs). -/
structure ContactData where
  jid : String
  lid : Option String
  phone_number : Option String
  name : Option String
  notify : Option String
  verified_name : Option String
  img_url : Option String
  status : Option String
deriving DecidableEq, Repr

/-- ParticipantData (tina-core/src/events.rs). -/
structure ParticipantData where
  id : String
  admin : Option String
  phone_number : Option String
deriving DecidableEq, Repr

/-- GroupData (tina-core/src/events.rs). -/
structure GroupData where
  jid : String
  subject : Option String
  owner : Option String
  description : Option String
  participants : List ParticipantData
deriving DecidableEq, Repr

/-- MessageData (tina-core/src/events.rs). -/
structure MessageData where
  message_id : String
  chat_jid : String
  sender_jid : String
  content : Option String
  message_type : String
  timestamp : Int
  is_from_me : Bool
  raw_json : Option String
deriving DecidableEq, Repr

/-- IpcCommand (tina-core/src/events.rs), serde adjacently tagged with
type and payload keys. -/
inductive IpcCommand where
  | StartAccount (account_id : String)
  | StopAccount (account_id : String)
  | GetQrCode (account_id : String)
  | SendMessage (account_id dest content : String)
  | GetContacts (account_id : String)
  | GetGroups (account_id : String)
  | GetMessages (account_id : String) (chat_jid : Option String) (limit : Int)
  | SetAuthState (account_id auth_state : String)
  | Shutdown
deriving DecidableEq, Repr

/-- IpcEvent (tina-core/src/events.rs), serde adjacently tagged with
type and payload keys. -/
inductive IpcEvent where
  | Ready (account_id : String)
  | QrCode (account_id qr : String)
  | Connected (account_id : String) (phone_number : Option String)
  | Disconnected (account_id reason : String)
  | LoggedOut (account_id : String)
  | AuthStateUpdated (account_id auth_state : String)
  | ContactsUpsert (account_id : String) (contacts : List ContactData)
  | ContactsUpdate (account_id : String) (contacts : List ContactData)
  | GroupsUpsert (account_id : String) (groups : List GroupData)
  | GroupsUpdate (account_id : String) (groups : List GroupData)
  | MessagesUpsert (account_id : String) (messages : List MessageData)
  | HistorySyncComplete (account_id : String) (messages_count : Nat)
  | Error (account_id : Option String) (error : String)
  | CommandResult (command_id : String) (success : Bool) (data : Option Json)
      (error : Option String)

/-- IpcMessageContent (tina-core/src/protocol.rs), serde untagged: a line is
either a Command or an Event, tried in that order. -/
inductive IpcMessageContent where
  | command (c : IpcCommand)
  | event (e : IpcEvent)

/-- IpcMessage (tina-core/src/protocol.rs): the envelope with its id and the
flattened content. -/
structure IpcMessage where
  id : String
  content : IpcMessageContent

/-- serde serialization of an Option(String) field: None becomes null. -/
def encodeOptStr : Option String → Json
  | none => Json.null
  | some s => Json.str s

/-- serde serialization of an Option(serde_json::Value) field: None becomes
null and Some v serializes as v itself; in particular Some(Null) and None
produce the same wire form. -/
def encodeOptJson : Option Json → Json
  | none => Json.null
  | some v => v

/-- serde serialization of ParticipantData. -/
def ParticipantData.toJson (p : ParticipantData) : Json :=
  Json.obj [("id", Json.str p.id), ("admin", encodeOptStr p.admin),
    ("phone_number", encodeOptStr p.phone_number)]

/-- serde serialization of ContactData. -/
def ContactData.toJson (c : ContactData) : Json :=
  Json.obj [("jid", Json.str c.jid), ("lid", encodeOptStr c.lid),
    ("phone_number", encodeOptStr c.phone_number), ("name", encodeOptStr c.name),
    ("notify", encodeOptStr c.notify), ("verified_name", encodeOptStr c.verified_name),
    ("img_url", encodeOptStr c.img_url), ("status", encodeOptStr c.status)]

/-- serde serialization of GroupData. -/
def GroupData.toJson (g : GroupData) : Json :=
  Json.obj [("jid", Json.str g.jid), ("subject", encodeOptStr g.subject),
    ("owner", encodeOptStr g.owner), ("description", encodeOptStr g.description),
    ("participants", Json.arr (g.participants.map ParticipantData.toJson))]

/-- serde serialization of MessageData. -/
def MessageData.toJson (m : MessageData) : Json :=
  Json.obj [("message_id", Json.str m.message_id), ("chat_jid", Json.str m.chat_jid),
    ("sender_jid", Json.str m.sender_jid), ("content", encodeOptStr m.content),
    ("message_type", Json.str m.message_type), ("timestamp", Json.num m.timestamp),
    ("is_from_me", Json.bool m.is_from_me), ("raw_json", encodeOptStr m.raw_json)]

/-- Tag and payload of a Command under serde adjacent tagging; the unit
variant Shutdown has no payload key. -/
def IpcCommand.tagPayload : IpcCommand → String × Option Json
  | .StartAccount aid => ("StartAccount", some (Json.obj [("account_id", Json.str aid)]))
  | .StopAccount aid => ("StopAccount", some (Json.obj [("account_id", Json.str aid)]))
  | .GetQrCode aid => ("GetQrCode", some (Json.obj [("account_id", Json.str aid)]))
  | .SendMessage aid dest content =>
    ("SendMessage", some (Json.obj [("account_id", Json.str aid), ("to", Json.str dest),
      ("content", Json.str content)]))
  | .GetContacts aid => ("GetContacts", some (Json.obj [("account_id", Json.str aid)]))
  | .GetGroups aid => ("GetGroups", some (Json.obj [("account_id", Json.str aid)]))
  | .GetMessages aid chat_jid limit =>
    ("GetMessages", some (Json.obj [("account_id", Json.str aid),
      ("chat_jid", encodeOptStr chat_jid), ("limit", Json.num limit)]))
  | .SetAuthState aid auth_state =>
    ("SetAuthState", some (Json.obj [("account_id", Json.str aid),
      ("auth_state", Json.str auth_state)]))
  | .Shutdown => ("Shutdown", none)

/-- Tag and payload of an Event under serde adjacent tagging. -/
def IpcEvent.tagPayload : IpcEvent → String × Option Json
  | .Ready aid => ("Ready", some (Json.obj [("account_id", Json.str aid)]))
  | .QrCode aid qr =>
    ("QrCode", some (Json.obj [("account_id", Json.str aid), ("qr", Json.str qr)]))
  | .Connected aid pn =>
    ("Connected", some (Json.obj [("account_id", Json.str aid),
      ("phone_number", encodeOptStr pn)]))
  | .Disconnected aid reason =>
    ("Disconnected", some (Json.obj [("account_id", Json.str aid),
      ("reason", Json.str reason)]))
  | .LoggedOut aid => ("LoggedOut", some (Json.obj [("account_id", Json.str aid)]))
  | .AuthStateUpdated aid st =>
    ("AuthStateUpdated", some (Json.obj [("account_id", Json.str aid),
      ("auth_state", Json.str st)]))
  | .ContactsUpsert aid cs =>
    ("ContactsUpsert", some (Json.obj [("account_id", Json.str aid),
      ("contacts", Json.arr (cs.map ContactData.toJson))]))
  | .ContactsUpdate aid cs =>
    ("ContactsUpdate", some (Json.obj [("account_id", Json.str aid),
      ("contacts", Json.arr (cs.map ContactData.toJson))]))
  | .GroupsUpsert aid gs =>
    ("GroupsUpsert", some (Json.obj [("account_id", Json.str aid),
      ("groups", Json.arr (gs.map GroupData.toJson))]))
  | .GroupsUpdate aid gs =>
    ("GroupsUpdate", some (Json.obj [("account_id", Json.str aid),
      ("groups", Json.arr (gs.map GroupData.toJson))]))
  | .MessagesUpsert aid ms =>
    ("MessagesUpsert", some (Json.obj [("account_id", Json.str aid),
      ("messages", Json.arr (ms.map MessageData.toJson))]))
  | .HistorySyncComplete aid n =>
    ("HistorySyncComplete", some (Json.obj [("account_id", Json.str aid),
      ("messages_count", Json.num (Int.ofNat n))]))
  | .Error aid err =>
    ("Error", some (Json.obj [("account_id", encodeOptStr aid),
      ("error", Json.str err)]))
  | .CommandResult cid success data err =>
    ("CommandResult", some (Json.obj [("command_id", Json.str cid),
      ("success", Json.bool success), ("data", encodeOptJson data),
      ("error", encodeOptStr err)]))

/-- Flattened key list of an adjacently tagged value. -/
def tagPayloadFields : String × Option Json → List (String × Json)
  | (t, none) => [("type", Json.str t)]
  | (t, some p) => [("type", Json.str t), ("payload", p)]

/-- serde serialization of the whole envelope: the id field, then the
flattened tagged content, as in IpcMessage::to_line. -/
def IpcMessage.encode (m : IpcMessage) : Json :=
  Json.obj (("id", Json.str m.id) ::
    match m.content with
    | .command c => tagPayloadFields c.tagPayload
    | .event e => tagPayloadFields e.tagPayload)

/-- Key lookup in a JSON object (serde_json map access). -/
def Json.getField : Json → String → Option Json
  | .obj fields, k => fields.lookup k
  | _, _ => none

/-- serde deserialization of a String field value. -/
def Json.asString : Json → Option String
  | .str s => some s
  | _ => none

/-- serde deserialization of an i64 field value. -/
def Json.asInt : Json → Option Int
  | .num n => some n
  | _ => none

/-- serde deserialization of a usize field value: negatives are rejected. -/
def Json.asNat : Json → Option Nat
  | .num n => if 0 ≤ n then some n.toNat else none
  | _ => none

/-- serde deserialization of a bool field value. -/
def Json.asBool : Json → Option Bool
  | .bool b => some b
  | _ => none

/-- serde deserialization of an Option(String) field: an absent key or a null
value is None, a string is Some. -/
def decodeOptStr : Option Json → Option (Option String)
  | none => some none
  | some Json.null => some none
  | some (Json.str s) => some (some s)
  | some _ => none

/-- serde deserialization of an Option(serde_json::Value) field: an absent
key or a null value is None, anything else is Some of the value itself.
A serialized Some(Null) therefore comes back as None. -/
def decodeOptJson : Option Json → Option (Option Json)
  | none => some none
  | some Json.null => some none
  | some v => some (some v)

/-- Required string field of a JSON object. -/
def getStr (j : Json) (k : String) : Option String :=
  (j.getField k).bind Json.asString

/-- Elementwise decoding of a JSON array body; any failure fails the list. -/
def decodeListAux {α : Type} (f : Json → Option α) : List Json → Option (List α)
  | [] => some []
  | x :: xs => do
    let a ← f x
    let rest ← decodeListAux f xs
    some (a :: rest)

/-- Array field decoded elementwise, as serde does for a Vec field. -/
def decodeList {α : Type} (f : Json → Option α) : Json → Option (List α)
  | .arr xs => decodeListAux f xs
  | _ => none

/-- serde deserialization of ParticipantData. -/
def ParticipantData.fromJson (j : Json) : Option ParticipantData := do
  let id ← getStr j "id"
  let admin ← decodeOptStr (j.getField "admin")
  let phone_number ← decodeOptStr (j.getField "phone_number")
  some { id := id, admin := admin, phone_number := phone_number }

/-- serde deserialization of ContactData. -/
def ContactData.fromJson (j : Json) : Option ContactData := do
  let jid ← getStr j "jid"
  let lid ← decodeOptStr (j.getField "lid")
  let phone_number ← decodeOptStr (j.getField "phone_number")
  let name ← decodeOptStr (j.getField "name")
  let notify ← decodeOptStr (j.getField "notify")
  let verified_name ← decodeOptStr (j.getField "verified_name")
  let img_url ← decodeOptStr (j.getField "img_url")
  let status ← decodeOptStr (j.getField "status")
  some { jid := jid, lid := lid, phone_number := phone_number, name := name,
         notify := notify, verified_name := verified_name, img_url := img_url,
         status := status }

/-- serde deserialization of GroupData. -/
def GroupData.fromJson (j : Json) : Option GroupData := do
  let jid ← getStr j "jid"
  let subject ← decodeOptStr (j.getField "subject")
  let owner ← decodeOptStr (j.getField "owner")
  let description ← decodeOptStr (j.getField "description")
  let pj ← j.getField "participants"
  let participants ← decodeList ParticipantData.fromJson pj
  some { jid := jid, subject := subject, owner := owner, description := description,
         participants := participants }

/-- serde deserialization of MessageData. -/
def MessageData.fromJson (j : Json) : Option MessageData := do
  let message_id ← getStr j "message_id"
  let chat_jid ← getStr j "chat_jid"
  let sender_jid ← getStr j "sender_jid"
  let content ← decodeOptStr (j.getField "content")
  let message_type ← getStr j "message_type"
  let timestamp ← (← j.getField "timestamp").asInt
  let is_from_me ← (← j.getField "is_from_me").asBool
  let raw_json ← decodeOptStr (j.getField "raw_json")
  some { message_id := message_id, chat_jid := chat_jid, sender_jid := sender_jid,
         content := content, message_type := message_type, timestamp := timestamp,
         is_from_me := is_from_me, raw_json := raw_json }

/-- serde deserialization of a Command from the envelope object: dispatch on
the type tag, then read the payload fields. -/
def IpcCommand.fromJson (j : Json) : Option IpcCommand := do
  let tag ← getStr j "type"
  match tag with
  | "StartAccount" => do
    let p ← j.getField "payload"
    let aid ← getStr p "account_id"
    some (.StartAccount aid)
  | "StopAccount" => do
    let p ← j.getField "payload"
    let aid ← getStr p "account_id"
    some (.StopAccount aid)
  | "GetQrCode" => do
    let p ← j.getField "payload"
    let aid ← getStr p "account_id"
    some (.GetQrCode aid)
  | "SendMessage" => do
    let p ← j.getField "payload"
    let aid ← getStr p "account_id"
    let dest ← getStr p "to"
    let content ← getStr p "content"
    some (.SendMessage aid dest content)
  | "GetContacts" => do
    let p ← j.getField "payload"
    let aid ← getStr p "account_id"
    some (.GetContacts aid)
  | "GetGroups" => do
    let p ← j.getField "payload"
    let aid ← getStr p "account_id"
    some (.GetGroups aid)
  | "GetMessages" => do
    let p ← j.getField "payload"
    let aid ← getStr p "account_id"
    let chat_jid ← decodeOptStr (p.getField "chat_jid")
    let limit ← (← p.getField "limit").asInt
    some (.GetMessages aid chat_jid limit)
  | "SetAuthState" => do
    let p ← j.getField "payload"
    let aid ← getStr p "account_id"
    let auth_state ← getStr p "auth_state"
    some (.SetAuthState aid auth_state)
  | "Shutdown" => some .Shutdown
  | _ => none

/-- serde deserialization of an Event from the envelope object. -/
def IpcEvent.fromJson (j : Json) : Option IpcEvent := do
  let tag ← getStr j "type"
  match tag with
  | "Ready" => do
    let p ← j.getField "payload"
    let aid ← getStr p "account_id"
    some (.Ready aid)
  | "QrCode" => do
    let p ← j.getField "payload"
    let aid ← getStr p "account_id"
    let qr ← getStr p "qr"
    some (.QrCode aid qr)
  | "Connected" => do
    let p ← j.getField "payload"
    let aid ← getStr p "account_id"
    let pn ← decodeOptStr (p.getField "phone_number")
    some (.Connected aid pn)
  | "Disconnected" => do
    let p ← j.getField "payload"
    let aid ← getStr p "account_id"
    let reason ← getStr p "reason"
    some (.Disconnected aid reason)
  | "LoggedOut" => do
    let p ← j.getField "payload"
    let aid ← getStr p "account_id"
    some (.LoggedOut aid)
  | "AuthStateUpdated" => do
    let p ← j.getField "payload"
    let aid ← getStr p "account_id"
    let st ← getStr p "auth_state"
    some (.AuthStateUpdated aid st)
  | "ContactsUpsert" => do
    let p ← j.getField "payload"
    let aid ← getStr p "account_id"
    let cj ← p.getField "contacts"
    let cs ← decodeList ContactData.fromJson cj
    some (.ContactsUpsert aid cs)
  | "ContactsUpdate" => do
    let p ← j.getField "payload"
    let aid ← getStr p "account_id"
    let cj ← p.getField "contacts"
    let cs ← decodeList ContactData.fromJson cj
    some (.ContactsUpdate aid cs)
  | "GroupsUpsert" => do
    let p ← j.getField "payload"
    let aid ← getStr p "account_id"
    let gj ← p.getField "groups"
    let gs ← decodeList GroupData.fromJson gj
    some (.GroupsUpsert aid gs)
  | "GroupsUpdate" => do
    let p ← j.getField "payload"
    let aid ← getStr p "account_id"
    let gj ← p.getField "groups"
    let gs ← decodeList GroupData.fromJson gj
    some (.GroupsUpdate aid gs)
  | "MessagesUpsert" => do
    let p ← j.getField "payload"
    let aid ← getStr p "account_id"
    let mj ← p.getField "messages"
    let ms ← decodeList MessageData.fromJson mj
    some (.MessagesUpsert aid ms)
  | "HistorySyncComplete" => do
    let p ← j.getField "payload"
    let aid ← getStr p "account_id"
    let n ← (← p.getField "messages_count").asNat
    some (.HistorySyncComplete aid n)
  | "Error" => do
    let p ← j.getField "payload"
    let aid ← decodeOptStr (p.getField "account_id")
    let err ← getStr p "error"
    some (.Error aid err)
  | "CommandResult" => do
    let p ← j.getField "payload"
    let cid ← getStr p "command_id"
    let success ← (← p.getField "success").asBool
    let data ← decodeOptJson (p.getField "data")
    let err ← decodeOptStr (p.getField "error")
    some (.CommandResult cid success data err)
  | _ => none

/-- serde deserialization of the envelope, as in IpcMessage::from_line: read
the id, then the untagged content, trying Command before Event as the
variant order of IpcMessageContent dictates. -/
def IpcMessage.decode (j : Json) : Option IpcMessage := do
  let id ← getStr j "id"
  let content ← (IpcCommand.fromJson j).map IpcMessageContent.command <|>
    (IpcEvent.fromJson j).map IpcMessageContent.event
  some { id := id, content := content }

/-! ### JSON text rendering

serde_json::to_string, needed because the worker stores the participant list
of a group as serialized JSON text (participants_json in worker.rs).
-/

/-- Lowercase hex digit, as used by the serde_json escape table. -/
def hexDigitChar (n : Nat) : Char :=
  if n < 10 then Char.ofNat (48 + n) else Char.ofNat (87 + n)

/-- serde_json escaping of one character inside a string literal. -/
def escapeChar (c : Char) : String :=
  if c = '"' then "\\\""
  else if c = '\\' then "\\\\"
  else if c.toNat = 8 then "\\b"
  else if c.toNat = 9 then "\\t"
  else if c.toNat = 10 then "\\n"
  else if c.toNat = 12 then "\\f"
  else if c.toNat = 13 then "\\r"
  else if c.toNat < 32 then
    "\\u00" ++ (hexDigitChar (c.toNat / 16)).toString ++ (hexDigitChar (c.toNat % 16)).toString
  else c.toString

/-- serde_json rendering of a string literal with quotes and escapes. -/
def renderString (s : String) : String :=
  "\"" ++ String.join (s.toList.map escapeChar) ++ "\""

mutual

/-- serde_json::to_string on a JSON value (compact form, no spaces). -/
def Json.render : Json → String
  | .null => "null"
  | .bool b => if b then "true" else "false"
  | .num n => toString n
  | .str s => renderString s
  | .arr xs => "[" ++ Json.renderArr xs ++ "]"
  | .obj fs => "\x7b" ++ Json.renderObj fs ++ "\x7d"

/-- Comma-separated rendering of array elements. -/
def Json.renderArr : List Json → String
  | [] => ""
  | [x] => Json.render x
  | x :: y :: rest => Json.render x ++ "," ++ Json.renderArr (y :: rest)

/-- Comma-separated rendering of object entries. -/
def Json.renderObj : List (String × Json) → String
  | [] => ""
  | [(k, v)] => renderString k ++ ":" ++ Json.render v
  | (k, v) :: f :: rest => renderString k ++ ":" ++ Json.render v ++ "," ++ Json.renderObj (f :: rest)

end

/-- serde_json::to_string(&group.participants), the text stored in the
participants_json column by the worker. -/
def serializeParticipants (ps : List ParticipantData) : String :=
  (Json.arr (ps.map ParticipantData.toJson)).render

/-! ## Worker event pipeline (crates/tina-worker)

handle_ipc_event (worker.rs lines 272 to 552) persists each incoming engine
event and publishes domain events.  The bounded channel sends are modelled as
an ordered output list.  A sqlx persistence failure is injected through the
failAt parameter: failAt = some k makes the k-th database write of the
handler invocation fail, mirroring the question-mark propagation of the Rust
code; failAt = none is the failure-free run.  The third component of the
result tells whether the handler returned Ok.
-/

/-- SyncType (tina-worker/src/events.rs). -/
inductive SyncType where
  | Contacts
  | Groups
  | Messages
  | History
  | All
deriving DecidableEq, Repr

/-- WorkerEvent (tina-worker/src/events.rs lines 22 to 41): the domain events
published to consumers.  This enum has no per-message new-message variant. -/
inductive WorkerEvent where
  | NanachiReady
  | AccountReady (account_id : String)
  | QrCode (account_id qr : String)
  | Connected (account_id : String) (phone_number : Option String)
  | Disconnected (account_id reason : String)
  | LoggedOut (account_id : String)
  | SyncStarted (account_id : String) (sync_type : SyncType)
  | SyncProgress (account_id : String) (sync_type : SyncType) (current : Nat)
      (total : Option Nat)
  | SyncCompleted (account_id : String) (sync_type : SyncType) (count : Nat)
  | ContactsSynced (account_id : String) (count : Nat)
  | GroupsSynced (account_id : String) (count : Nat)
  | MessagesSynced (account_id : String) (count : Nat)
  | HistorySyncComplete (account_id : String) (messages_count : Nat)
  | Error (account_id : Option String) (error : String)
deriving DecidableEq, Repr

/-- One for-loop over a batch, shared shape of the five bulk handlers: per
item a store write (step), then the progress events due at that index; the
write at index failAt fails and aborts the remainder, as the question mark
after the awaited db call does in worker.rs. -/
def batchLoop {α : Type} (step : Db → α → Db) (progress : Nat → List WorkerEvent)
    (failAt : Option Nat) : Db → List α → Nat → Db × List WorkerEvent × Bool
  | db, [], _ => (db, [], true)
  | db, x :: xs, i =>
    if failAt = some i then (db, [], false)
    else
      let db1 := step db x
      let (db2, evs, ok) := batchLoop step progress failAt db1 xs (i + 1)
      (db2, progress i ++ evs, ok)

/-- Store write for one contact of a ContactsUpsert or ContactsUpdate batch
(worker.rs lines 339 to 351): upsert with is_local = false. -/
def contactStep (account_id : String) (now : Int) (db : Db) (c : ContactData) : Db :=
  upsert_contact db account_id c.jid c.lid c.phone_number c.name c.notify
    c.verified_name c.img_url c.status false now

/-- Store write for one group of a GroupsUpsert batch (worker.rs lines 411 to
429): the participant list is always serialized, also when it is empty. -/
def groupUpsertStep (account_id : String) (now : Int) (db : Db) (g : GroupData) : Db :=
  upsert_group db account_id g.jid g.subject g.owner g.description
    (some (serializeParticipants g.participants)) now

/-- Store write for one group of a GroupsUpdate batch (worker.rs lines 448 to
464): an empty participant list becomes NULL so the stored list survives. -/
def groupUpdateStep (account_id : String) (now : Int) (db : Db) (g : GroupData) : Db :=
  upsert_group db account_id g.jid g.subject g.owner g.description
    (if g.participants.isEmpty then none else some (serializeParticipants g.participants)) now

/-- Store write for one message of a MessagesUpsert batch (worker.rs lines
488 to 499): insert-or-ignore. -/
def messageStep (account_id : String) (now : Int) (db : Db) (m : MessageData) : Db :=
  insert_message db account_id m.message_id m.chat_jid m.sender_jid m.content
    m.message_type m.timestamp m.is_from_me m.raw_json now

/-- Progress events due after the contact at index i (worker.rs line 353):
one SyncProgress when the batch exceeds 10 items and i is a multiple of 50. -/
def contactsProgress (account_id : String) (count : Nat) (i : Nat) : List WorkerEvent :=
  if count > 10 && i % 50 == 0 then
    [.SyncProgress account_id .Contacts (i + 1) (some count)]
  else []

/-- Progress events due after the message at index i (worker.rs line 501):
one SyncProgress when the batch exceeds 50 items and i is a multiple of 100. -/
def messagesProgress (account_id : String) (count : Nat) (i : Nat) : List WorkerEvent :=
  if count > 50 && i % 100 == 0 then
    [.SyncProgress account_id .Messages (i + 1) (some count)]
  else []

/-- No per-item events, as in the ContactsUpdate, GroupsUpsert and
GroupsUpdate loops of worker.rs. -/
def noProgress (_ : Nat) : List WorkerEvent := []

/-- handle_ipc_event (worker.rs lines 272 to 552).  Returns the store after
the handler, the WorkerEvents sent on event_tx in order, and whether the
handler returned Ok. -/
def handle_ipc_event (db : Db) (now : Int) (failAt : Option Nat) :
    IpcEvent → Db × List WorkerEvent × Bool
  | .Ready aid =>
    if aid = "" then (db, [.NanachiReady], true) else (db, [.AccountReady aid], true)
  | .QrCode aid qr => (db, [.QrCode aid qr], true)
  | .Connected aid pn => (db, [.Connected aid pn], true)
  | .Disconnected aid reason => (db, [.Disconnected aid reason], true)
  | .LoggedOut aid => (db, [.LoggedOut aid], true)
  | .AuthStateUpdated aid st =>
    if failAt = some 0 then (db, [], false)
    else (save_auth_state db aid st now, [], true)
  | .ContactsUpsert aid cs =>
    let count := cs.length
    let (db1, evs, ok) := batchLoop (contactStep aid now) (contactsProgress aid count)
      failAt db cs 0
    if ok then
      (db1, .SyncStarted aid .Contacts :: evs ++
        [.SyncCompleted aid .Contacts count, .ContactsSynced aid count], true)
    else (db1, .SyncStarted aid .Contacts :: evs, false)
  | .ContactsUpdate aid cs =>
    batchLoop (contactStep aid now) noProgress failAt db cs 0
  | .GroupsUpsert aid gs =>
    let count := gs.length
    let (db1, evs, ok) := batchLoop (groupUpsertStep aid now) noProgress failAt db gs 0
    if ok then
      (db1, .SyncStarted aid .Groups :: evs ++
        [.SyncCompleted aid .Groups count, .GroupsSynced aid count], true)
    else (db1, .SyncStarted aid .Groups :: evs, false)
  | .GroupsUpdate aid gs =>
    batchLoop (groupUpdateStep aid now) noProgress failAt db gs 0
  | .MessagesUpsert aid ms =>
    let count := ms.length
    let (db1, evs, ok) := batchLoop (messageStep aid now) (messagesProgress aid count)
      failAt db ms 0
    if ok then
      (db1, .SyncStarted aid .Messages :: evs ++
        [.SyncCompleted aid .Messages count, .MessagesSynced aid count], true)
    else (db1, .SyncStarted aid .Messages :: evs, false)
  | .HistorySyncComplete aid n =>
    (db, [.SyncCompleted aid .History n, .HistorySyncComplete aid n], true)
  | .Error aid err => (db, [.Error aid err], true)
  | .CommandResult _ _ _ _ => (db, [], true)

/-- The pipeline task spawned by TinaWorker::start (worker.rs lines 58 to
66): each decoded event goes through handle_ipc_event; a handler error is
only logged and the loop moves on to the next event.  Each event comes
paired with its failure injection. -/
def processEvents (now : Int) : Db → List (IpcEvent × Option Nat) → Db × List WorkerEvent
  | db, [] => (db, [])
  | db, (e, failAt) :: rest =>
    let (db1, evs, _ok) := handle_ipc_event db now failAt e
    let (db2, evs2) := processEvents now db1 rest
    (db2, evs ++ evs2)

/-! ## Engine process manager (crates/tina-ipc)

NanachiManager owns the optional child process.  Spawning, dependency
checking and stream writes are external effects; their outcomes enter the
model as Except-valued parameters, while the state transition logic is the
translation of nanachi.rs.
-/

/-- IpcError (tina-ipc/src/error.rs). -/
inductive IpcError where
  | Io (msg : String)
  | ProcessNotRunning
  | SpawnFailed (msg : String)
  | BunInstallFailed (msg : String)
  | Serialization (msg : String)
  | ChannelClosed
  | Timeout
deriving DecidableEq, Repr

/-- NanachiManager state (nanachi.rs): the directory and the optional child
process handle; the event channel halves are not part of the claims. -/
structure NanachiManager where
  nanachi_dir : String
  process : Option Nat
deriving DecidableEq, Repr

/-- NanachiManager::start (nanachi.rs lines 71 to 92): an immediate Ok when a
process is already running; otherwise dependency check then spawn.  The
returned flag tells whether a spawn was attempted. -/
def NanachiManager.start (m : NanachiManager) (deps : Except IpcError Unit)
    (spawn : Except IpcError Nat) : Except IpcError NanachiManager × Bool :=
  if m.process.isSome then (Except.ok m, false)
  else
    match deps with
    | .error e => (.error e, false)
    | .ok _ =>
      match spawn with
      | .error e => (.error e, true)
      | .ok h => (.ok { m with process := some h }, true)

/-- NanachiManager::send_command (nanachi.rs lines 105 to 129): fails with
ProcessNotRunning when no process handle is held, otherwise the outcome of
the stream write. -/
def NanachiManager.send_command (m : NanachiManager)
    (sendResult : Except IpcError Unit) : Except IpcError Unit :=
  match m.process with
  | none => .error .ProcessNotRunning
  | some _ => sendResult

/-- NanachiManager::stop (nanachi.rs lines 94 to 103): takes the process if
present, best-effort Shutdown then kill, always returns Ok.  The flag tells
whether a running process was stopped; false means the call had no effect. -/
def NanachiManager.stop (m : NanachiManager) : NanachiManager × Bool :=
  match m.process with
  | none => (m, false)
  | some _ => ({ m with process := none }, true)

/-! ## Sample data for concrete witnesses -/

/-- A stored account row used by concrete witnesses. -/
def sampleAccount : AccountRow :=
  { id := "acme", name := some "Acme", phone_number := some "55",
    auth_state := some "AS", created_at := 1, updated_at := 1 }

/-- A stored contact row used by concrete witnesses. -/
def sampleContact : ContactRow :=
  { account_id := "acme", jid := "1@s", lid := some "L0", phone_number := none,
    name := some "Ana", notify_name := none, verified_name := none,
    img_url := none, status := some "st", is_local := false,
    created_at := 1, updated_at := 1 }

/-- A stored group row used by concrete witnesses; its participants_json text
is arbitrary stored content. -/
def sampleGroup : GroupRow :=
  { account_id := "acme", jid := "g@g", subject := some "S", owner := none,
    description := none, participants_json := some "OLD",
    created_at := 1, updated_at := 1 }

/-- A store holding one account, one contact and one group. -/
def sampleDb : Db :=
  { accounts := [sampleAccount], contacts := [sampleContact],
    groups := [sampleGroup], messages := [] }

/-! ## Claim C4: contact upsert merges by coalescing -/

/-- Core merge fact behind C4: when a row with the key exists, the upsert
rewrites it to the COALESCE merge of incoming over stored. -/
theorem upsert_contact_found (db : Db) (account_id jid : String)
    (lid phone_number name notify_name verified_name img_url status : Option String)
    (is_local : Bool) (now : Int) (r : ContactRow)
    (h : get_contact_by_jid db account_id jid = some r) :
    get_contact_by_jid (upsert_contact db account_id jid lid phone_number name
      notify_name verified_name img_url status is_local now) account_id jid
      = some { r with
          lid := coalesce lid r.lid,
          phone_number := coalesce phone_number r.phone_number,
          name := coalesce name r.name,
          notify_name := coalesce notify_name r.notify_name,
          verified_name := coalesce verified_name r.verified_name,
          img_url := coalesce img_url r.img_url,
          status := coalesce status r.status,
          is_local := is_local,
          updated_at := now } := by
  have hany : db.contacts.any (contactKey account_id jid) = true :=
    any_of_find?_eq_some h
  unfold get_contact_by_jid at h ⊢
  unfold upsert_contact
  rw [if_pos hany]
  show (db.contacts.map _).find? _ = _
  rw [find?_map_update (contactKey account_id jid)
    (fun c => { c with
      lid := coalesce lid c.lid,
      phone_number := coalesce phone_number c.phone_number,
      name := coalesce name c.name,
      notify_name := coalesce notify_name c.notify_name,
      verified_name := coalesce verified_name c.verified_name,
      img_url := coalesce img_url c.img_url,
      status := coalesce status c.status,
      is_local := is_local,
      updated_at := now }) db.contacts (fun c => rfl), h]
  rfl

/-- C4: re-upserting an existing (account id, JID) contact merges by
coalescing: every non-null incoming field overwrites, every null incoming
field preserves the stored value; in particular an all-null re-upsert leaves
all stored nullable fields unchanged. -/
theorem upsert_contact_coalesce_merge (db : Db) (account_id jid : String)
    (lid phone_number name notify_name verified_name img_url status : Option String)
    (is_local : Bool) (now : Int) (r : ContactRow)
    (h : get_contact_by_jid db account_id jid = some r) :
    get_contact_by_jid (upsert_contact db account_id jid lid phone_number name
      notify_name verified_name img_url status is_local now) account_id jid
      = some { r with
          lid := coalesce lid r.lid,
          phone_number := coalesce phone_number r.phone_number,
          name := coalesce name r.name,
          notify_name := coalesce notify_name r.notify_name,
          verified_name := coalesce verified_name r.verified_name,
          img_url := coalesce img_url r.img_url,
          status := coalesce status r.status,
          is_local := is_local,
          updated_at := now }
    ∧ get_contact_by_jid (upsert_contact db account_id jid none none none none
        none none none is_local now) account_id jid
      = some { r with is_local := is_local, updated_at := now } :=
  ⟨upsert_contact_found db account_id jid lid phone_number name notify_name
      verified_name img_url status is_local now r h,
   upsert_contact_found db account_id jid none none none none none none none
      is_local now r h⟩

/-- Witness for C4 at a concrete store: a non-null lid overwrites, the null
fields keep their stored values, and the all-null upsert changes nothing but
is_local and updated_at. -/
theorem upsert_contact_coalesce_merge_witness :
    get_contact_by_jid (upsert_contact sampleDb "acme" "1@s" (some "L1") none
      (some "Bea") none none none none false 9) "acme" "1@s"
      = some { sampleContact with
          lid := coalesce (some "L1") sampleContact.lid,
          phone_number := coalesce none sampleContact.phone_number,
          name := coalesce (some "Bea") sampleContact.name,
          notify_name := coalesce none sampleContact.notify_name,
          verified_name := coalesce none sampleContact.verified_name,
          img_url := coalesce none sampleContact.img_url,
          status := coalesce none sampleContact.status,
          is_local := false,
          updated_at := 9 }
    ∧ get_contact_by_jid (upsert_contact sampleDb "acme" "1@s" none none none
        none none none none false 9) "acme" "1@s"
      = some { sampleContact with is_local := false, updated_at := 9 } :=
  upsert_contact_coalesce_merge sampleDb "acme" "1@s" (some "L1") none
    (some "Bea") none none none none false 9 sampleContact (by decide)

/-! ## Claim C5: message insert is idempotent under redelivery -/

/-- Insert-or-ignore on an already present (account id, message id) pair
returns the store untouched. -/
theorem insert_message_existing (db : Db) (account_id message_id cj sj : String)
    (ct : Option String) (mt : String) (ts : Int) (ifm : Bool)
    (rj : Option String) (now : Int)
    (h : db.messages.any (messageKey account_id message_id) = true) :
    insert_message db account_id message_id cj sj ct mt ts ifm rj now = db := by
  unfold insert_message
  rw [if_pos h]

/-- C5: inserting a fresh (account id, message id) stores exactly one row for
that pair, and redelivering any message with the same pair is a no-op: the
store, including every field of the stored row, is unchanged. -/
theorem insert_message_idempotent (db : Db) (account_id message_id : String)
    (cj sj : String) (ct : Option String) (mt : String) (ts : Int) (ifm : Bool)
    (rj : Option String) (now : Int)
    (cj2 sj2 : String) (ct2 : Option String) (mt2 : String) (ts2 : Int)
    (ifm2 : Bool) (rj2 : Option String) (now2 : Int)
    (h : db.messages.any (messageKey account_id message_id) = false) :
    ((insert_message db account_id message_id cj sj ct mt ts ifm rj now).messages.countP
        (messageKey account_id message_id) = 1)
    ∧ insert_message (insert_message db account_id message_id cj sj ct mt ts ifm rj now)
        account_id message_id cj2 sj2 ct2 mt2 ts2 ifm2 rj2 now2
      = insert_message db account_id message_id cj sj ct mt ts ifm rj now := by
  have hzero : db.messages.countP (messageKey account_id message_id) = 0 := by
    rw [List.countP_eq_zero]
    intro a ha hpa
    exact absurd (List.any_eq_true.mpr ⟨a, ha, hpa⟩) (by simp [h])
  constructor
  · simp only [insert_message, h, Bool.false_eq_true, if_false]
    rw [List.countP_append, hzero]
    simp [messageKey, List.countP_cons]
  · have hnew : (insert_message db account_id message_id cj sj ct mt ts ifm rj now).messages.any
        (messageKey account_id message_id) = true := by
      simp only [insert_message, h, Bool.false_eq_true, if_false]
      simp [List.any_append, messageKey]
    exact insert_message_existing _ _ _ _ _ _ _ _ _ _ _ hnew

/-- Witness for C5 on the sample store, which holds no messages. -/
theorem insert_message_idempotent_witness :
    ((insert_message sampleDb "acme" "m1" "1@s" "2@s" (some "hi") "text" 5 false
        none 7).messages.countP (messageKey "acme" "m1") = 1)
    ∧ insert_message (insert_message sampleDb "acme" "m1" "1@s" "2@s" (some "hi")
        "text" 5 false none 7) "acme" "m1" "x" "y" (some "other") "image" 6 true
        (some "raw") 8
      = insert_message sampleDb "acme" "m1" "1@s" "2@s" (some "hi") "text" 5 false
        none 7 :=
  insert_message_idempotent sampleDb "acme" "m1" "1@s" "2@s" (some "hi") "text" 5
    false none 7 "x" "y" (some "other") "image" 6 true (some "raw") 8 (by decide)

/-! ## Claim C9: create_account on an existing id overwrites name, keeps the rest -/

/-- C9: calling create_account again for an existing id overwrites the stored
name with the incoming one, also when the incoming name is null, refreshes
updated_at, and leaves auth_state, phone_number and created_at as they were. -/
theorem create_account_overwrites_name (db : Db) (id : String)
    (name : Option String) (now : Int) (a : AccountRow)
    (h : get_account db id = some a) :
    get_account (create_account db id name now) id
      = some { a with name := name, updated_at := now } := by
  have hany : db.accounts.any (accountKey id) = true := any_of_find?_eq_some h
  unfold get_account at h ⊢
  unfold create_account
  rw [if_pos hany]
  show (db.accounts.map _).find? _ = _
  rw [find?_map_update (accountKey id)
    (fun a => { a with name := name, updated_at := now }) db.accounts
    (fun a => rfl), h]
  rfl

/-- Witness for C9: overwriting a stored non-null name with a null name,
while auth_state, phone_number and created_at survive. -/
theorem create_account_overwrites_name_witness :
    get_account (create_account sampleDb "acme" none 9) "acme"
      = some { sampleAccount with name := none, updated_at := 9 } :=
  create_account_overwrites_name sampleDb "acme" none 9 sampleAccount (by decide)

/-! ## Claim C10: save_auth_state for an unknown account is a silent no-op -/

/-- C10: save_auth_state with an account id that is not stored succeeds and
leaves the store unchanged: the UPDATE matches no row, so nothing is written
and no row is created.  Success is built into the model, because a sqlx
UPDATE affecting zero rows still returns Ok. -/
theorem save_auth_state_unknown_account (db : Db) (account_id auth_state : String)
    (now : Int) (h : get_account db account_id = none) :
    save_auth_state db account_id auth_state now = db := by
  have hall : ∀ a ∈ db.accounts, accountKey account_id a = false := by
    intro a ha
    have := List.find?_eq_none.mp h a ha
    simpa using this
  unfold save_auth_state
  rw [map_update_of_none _ _ _ hall]

/-- Witness for C10: an id that the sample store does not contain. -/
theorem save_auth_state_unknown_account_witness :
    save_auth_state sampleDb "ghost" "AS2" 9 = sampleDb :=
  save_auth_state_unknown_account sampleDb "ghost" "AS2" 9 (by decide)

/-! ## Claim C7: bridge lifecycle idempotence -/

/-- C7: with no process running, send_command fails with ProcessNotRunning,
whatever the stream write would have produced; with a process running, start
returns Ok without attempting a spawn and without changing state; with no
process running, stop succeeds, changes nothing and kills nothing.  The
manager state is quantified through its directory and handle. -/
theorem nanachi_lifecycle_idempotence (dir : String) (h : Nat)
    (sendResult : Except IpcError Unit) (deps : Except IpcError Unit)
    (spawn : Except IpcError Nat) :
    NanachiManager.send_command ⟨dir, none⟩ sendResult
      = Except.error IpcError.ProcessNotRunning
    ∧ NanachiManager.start ⟨dir, some h⟩ deps spawn = (Except.ok ⟨dir, some h⟩, false)
    ∧ NanachiManager.stop ⟨dir, none⟩ = (⟨dir, none⟩, false) :=
  ⟨rfl, rfl, rfl⟩

/-! ## Claim C1: per-message new-message events

The MessagesUpsert arm of handle_ipc_event (worker.rs lines 467 to 524)
publishes no per-message event at all: WorkerEvent (tina-worker/src/events.rs)
has no new-message variant, while the front end in
crates/tina/src/state/service_worker.rs line 365 matches a
WorkerEvent::NewMessage carrying chat_jid, content and timestamp.  The
theorem below evaluates the handler on a one-message batch: the only events
published are SyncStarted, SyncCompleted and MessagesSynced.
-/

/-- An incoming engine message used as the failing input of C1. -/
def c1message : MessageData :=
  { message_id := "m1", chat_jid := "1@s", sender_jid := "2@s",
    content := some "hi", message_type := "text", timestamp := 5,
    is_from_me := false, raw_json := none }

/-- C1 evaluation: on a MessagesUpsert with one message, the handler inserts
the row and publishes exactly SyncStarted, SyncCompleted and MessagesSynced;
no event carrying the chat JID, content or timestamp of the message exists in
the output (the WorkerEvent type has no such constructor). -/
theorem messages_upsert_publishes_no_per_message_event :
    handle_ipc_event Db.empty 0 none (.MessagesUpsert "acme" [c1message])
      = ({ Db.empty with messages :=
            [{ account_id := "acme", message_id := "m1", chat_jid := "1@s",
               sender_jid := "2@s", content := some "hi", message_type := "text",
               timestamp := 5, is_from_me := false, raw_json := none,
               created_at := 0 }] },
         [.SyncStarted "acme" .Messages, .SyncCompleted "acme" .Messages 1,
          .MessagesSynced "acme" 1], true) := by
  decide

/-! ## Claim C3: group participant list replacement

GroupsUpdate (worker.rs lines 448 to 464) maps an empty incoming participant
list to NULL, so the COALESCE in upsert_group preserves the stored list; but
GroupsUpsert (worker.rs lines 411 to 429) serializes the participant list
unconditionally, so an empty incoming list overwrites the stored list with
the serialized empty list.
-/

/-- Incoming group payload with an empty participant list, targeting the
stored sample group. -/
def c3group : GroupData :=
  { jid := "g@g", subject := none, owner := none, description := none,
    participants := [] }

/-- C3 counterexample: a GroupsUpsert whose group carries an empty
participant list replaces the stored participants_json text with the
serialized empty list, so the claim that an empty incoming list always
leaves the stored list unchanged fails on upserts. -/
theorem groups_upsert_empty_list_replaces :
    ((handle_ipc_event sampleDb 7 none (.GroupsUpsert "acme" [c3group])).1.groups.map
        GroupRow.participants_json) = [some "[]"]
    ∧ (sampleDb.groups.map GroupRow.participants_json) = [some "OLD"] := by
  constructor
  · decide
  · decide

/-- Core merge fact behind C3: when a row with the key exists, upsert_group
rewrites it to the COALESCE merge of incoming over stored. -/
theorem upsert_group_found (db : Db) (account_id jid : String)
    (subject owner description participants_json : Option String) (now : Int)
    (r : GroupRow) (h : get_group_by_jid db account_id jid = some r) :
    get_group_by_jid (upsert_group db account_id jid subject owner description
      participants_json now) account_id jid
      = some { r with
          subject := coalesce subject r.subject,
          owner := coalesce owner r.owner,
          description := coalesce description r.description,
          participants_json := coalesce participants_json r.participants_json,
          updated_at := now } := by
  have hany : db.groups.any (groupKey account_id jid) = true :=
    any_of_find?_eq_some h
  unfold get_group_by_jid at h ⊢
  unfold upsert_group
  rw [if_pos hany]
  show (db.groups.map _).find? _ = _
  rw [find?_map_update (groupKey account_id jid)
    (fun g => { g with
      subject := coalesce subject g.subject,
      owner := coalesce owner g.owner,
      description := coalesce description g.description,
      participants_json := coalesce participants_json g.participants_json,
      updated_at := now }) db.groups (fun g => rfl), h]
  rfl

/-- C3 amended: for a stored group row, a GroupsUpdate event replaces the
stored participant list exactly when the incoming list is non-empty and
preserves it when the incoming list is empty, while a GroupsUpsert event
always replaces it with the serialization of the incoming list, also when
that list is empty. -/
theorem group_participant_replacement (db : Db) (account_id : String)
    (g : GroupData) (now : Int) (r : GroupRow)
    (h : get_group_by_jid db account_id g.jid = some r) :
    get_group_by_jid ((handle_ipc_event db now none (.GroupsUpdate account_id [g])).1)
        account_id g.jid
      = some { r with
          subject := coalesce g.subject r.subject,
          owner := coalesce g.owner r.owner,
          description := coalesce g.description r.description,
          participants_json :=
            if g.participants.isEmpty then r.participants_json
            else some (serializeParticipants g.participants),
          updated_at := now }
    ∧ get_group_by_jid ((handle_ipc_event db now none (.GroupsUpsert account_id [g])).1)
        account_id g.jid
      = some { r with
          subject := coalesce g.subject r.subject,
          owner := coalesce g.owner r.owner,
          description := coalesce g.description r.description,
          participants_json := some (serializeParticipants g.participants),
          updated_at := now } := by
  constructor
  · show get_group_by_jid (upsert_group db account_id g.jid g.subject g.owner
      g.description (if g.participants.isEmpty then none
        else some (serializeParticipants g.participants)) now) account_id g.jid = _
    rw [upsert_group_found db account_id g.jid g.subject g.owner g.description _
      now r h]
    by_cases he : g.participants.isEmpty
    · simp [he, coalesce]
    · simp [he, coalesce]
  · show get_group_by_jid (upsert_group db account_id g.jid g.subject g.owner
      g.description (some (serializeParticipants g.participants)) now)
      account_id g.jid = _
    rw [upsert_group_found db account_id g.jid g.subject g.owner g.description _
      now r h]
    rfl

/-- Witness for the amended C3 at a concrete store, with a non-empty incoming
participant list on the update path and an empty one on the upsert path. -/
theorem group_participant_replacement_witness :
    (get_group_by_jid ((handle_ipc_event sampleDb 7 none
        (.GroupsUpdate "acme" [c3group])).1) "acme" c3group.jid
      = some { sampleGroup with
          subject := coalesce c3group.subject sampleGroup.subject,
          owner := coalesce c3group.owner sampleGroup.owner,
          description := coalesce c3group.description sampleGroup.description,
          participants_json :=
            if c3group.participants.isEmpty then sampleGroup.participants_json
            else some (serializeParticipants c3group.participants),
          updated_at := 7 }
    ∧ get_group_by_jid ((handle_ipc_event sampleDb 7 none
        (.GroupsUpsert "acme" [c3group])).1) "acme" c3group.jid
      = some { sampleGroup with
          subject := coalesce c3group.subject sampleGroup.subject,
          owner := coalesce c3group.owner sampleGroup.owner,
          description := coalesce c3group.description sampleGroup.description,
          participants_json := some (serializeParticipants c3group.participants),
          updated_at := 7 }) :=
  group_participant_replacement sampleDb "acme" c3group 7 sampleGroup (by decide)

/-! ## Claim C2: contact batch progress events

The loop condition in worker.rs line 353 is i % 50 == 0 on the zero-based
index, so a progress event also fires on the very first item: a batch of 120
contacts yields progress events at items 1, 51 and 101 — three, not
floor(120/50) = 2.
-/

/-- The current field of every SyncProgress event of a published list, in
publication order. -/
def progressCurrents (evs : List WorkerEvent) : List Nat :=
  evs.filterMap fun e =>
    match e with
    | .SyncProgress _ _ current _ => some current
    | _ => none

/-- Test for a SyncProgress event. -/
def isSyncProgress : WorkerEvent → Bool
  | .SyncProgress _ _ _ _ => true
  | _ => false

/-- A failure-free batch loop folds the store writes left to right, emits the
progress events of every index in order, and reports success. -/
theorem batchLoop_none {α : Type} (step : Db → α → Db)
    (progress : Nat → List WorkerEvent) :
    ∀ (xs : List α) (db : Db) (i : Nat),
    batchLoop step progress none db xs i
      = (xs.foldl step db, ((List.range' i xs.length).map progress).flatten, true) := by
  intro xs
  induction xs with
  | nil => intro db i; simp [batchLoop]
  | cons x t ih =>
    intro db i
    simp only [batchLoop, List.length_cons, List.range'_succ, List.map_cons,
      List.flatten_cons, List.foldl_cons]
    rw [ih (step db x) (i + 1)]
    simp

/-- Flattening singleton-or-empty blocks is filtering then mapping. -/
theorem flatten_map_ite {α β : Type} (p : α → Bool) (g : α → β) (l : List α) :
    (l.map fun a => if p a then [g a] else []).flatten = (l.filter p).map g := by
  induction l with
  | nil => rfl
  | cons a t ih =>
    by_cases hpa : p a = true
    · simp [hpa, ih, List.filter_cons]
    · have hpa' : p a = false := by simpa using hpa
      simp [hpa', ih, List.filter_cons]

/-- Number of multiples of 50 below n. -/
theorem length_filter_mod50 (n : Nat) :
    ((List.range n).filter fun j => j % 50 == 0).length = (n + 49) / 50 := by
  induction n with
  | zero => rfl
  | succ n ih =>
    have hs : (n + 50) / 50 = (n + 49) / 50 + if 50 ∣ (n + 50) then 1 else 0 := by
      have h := Nat.succ_div (n + 49) 50
      simpa [show (n + 49) + 1 = n + 50 from by omega] using h
    rw [List.range_succ, List.filter_append, List.length_append, ih,
      show n + 1 + 49 = n + 50 from by omega, hs]
    by_cases h : n % 50 = 0
    · have hd : (50 : Nat) ∣ n + 50 :=
        Nat.dvd_add_self_right.mpr (Nat.dvd_iff_mod_eq_zero.mpr h)
      simp [h, hd]
    · have hd : ¬ (50 : Nat) ∣ n + 50 := fun hdvd =>
        h (Nat.dvd_iff_mod_eq_zero.mp (Nat.dvd_add_self_right.mp hdvd))
      simp [h, hd]

set_option maxRecDepth 40000 in
/-- C2 counterexample: a ContactsUpsert batch of 120 identical contacts
publishes SyncProgress events with currents 1, 51 and 101 — three events,
not two. -/
theorem contacts_batch_120_has_three_progress_events :
    progressCurrents ((handle_ipc_event Db.empty 0 none
        (.ContactsUpsert "acme" (List.replicate 120
          { jid := "1@s", lid := none, phone_number := none, name := some "Ana",
            notify := none, verified_name := none, img_url := none,
            status := none }))).2.1) = [1, 51, 101]
    ∧ ((handle_ipc_event Db.empty 0 none
        (.ContactsUpsert "acme" (List.replicate 120
          { jid := "1@s", lid := none, phone_number := none, name := some "Ana",
            notify := none, verified_name := none, img_url := none,
            status := none }))).2.1).countP isSyncProgress ≠ 2 := by
  constructor
  · decide
  · decide

/-- C2 amended: for a contacts batch longer than 10 items, the published
event list is SyncStarted, then one SyncProgress per item index that is a
multiple of 50 (so items 1, 51, 101, ...; for 120 items that is
(120 + 49) / 50 = 3 events, not floor(120/50) = 2), then SyncCompleted and
ContactsSynced; the progress count is (n + 49) / 50 and the currents are
strictly increasing. -/
theorem contacts_upsert_progress_events (db : Db) (now : Int) (aid : String)
    (cs : List ContactData) (h : cs.length > 10) :
    (handle_ipc_event db now none (.ContactsUpsert aid cs)).2.1
      = .SyncStarted aid .Contacts ::
        (((List.range cs.length).filter fun j => j % 50 == 0).map
          fun j => WorkerEvent.SyncProgress aid .Contacts (j + 1) (some cs.length)) ++
        [.SyncCompleted aid .Contacts cs.length, .ContactsSynced aid cs.length]
    ∧ ((List.range cs.length).filter fun j => j % 50 == 0).length
        = (cs.length + 49) / 50
    ∧ List.Pairwise (· < ·)
        (progressCurrents ((handle_ipc_event db now none
          (.ContactsUpsert aid cs)).2.1)) := by
  have hd : decide (cs.length > 10) = true := decide_eq_true h
  have hflat : ((List.range' 0 cs.length).map (contactsProgress aid cs.length)).flatten
      = ((List.range cs.length).filter fun j => j % 50 == 0).map
        fun j => WorkerEvent.SyncProgress aid .Contacts (j + 1) (some cs.length) := by
    rw [← List.range_eq_range',
      show contactsProgress aid cs.length
        = (fun j => if (j % 50 == 0 : Bool)
            then [WorkerEvent.SyncProgress aid .Contacts (j + 1) (some cs.length)]
            else []) from funext fun j => by simp [contactsProgress, hd]]
    exact flatten_map_ite _ _ _
  have hmain : (handle_ipc_event db now none (.ContactsUpsert aid cs)).2.1
      = .SyncStarted aid .Contacts ::
        (((List.range cs.length).filter fun j => j % 50 == 0).map
          fun j => WorkerEvent.SyncProgress aid .Contacts (j + 1) (some cs.length)) ++
        [.SyncCompleted aid .Contacts cs.length, .ContactsSynced aid cs.length] := by
    simp only [handle_ipc_event]
    rw [batchLoop_none, hflat]
    simp
  refine ⟨hmain, length_filter_mod50 cs.length, ?_⟩
  rw [hmain]
  simp only [progressCurrents, List.filterMap_cons, List.filterMap_append,
    List.filterMap_map]
  have hfm : (List.filterMap
      ((fun e => match e with
        | WorkerEvent.SyncProgress _ _ current _ => some current
        | _ => none)
        ∘ fun j => WorkerEvent.SyncProgress aid .Contacts (j + 1) (some cs.length))
      ((List.range cs.length).filter fun j => j % 50 == 0))
      = ((List.range cs.length).filter fun j => j % 50 == 0).map fun j => j + 1 := by
    rw [show ((fun e => match e with
        | WorkerEvent.SyncProgress _ _ current _ => some current
        | _ => none)
        ∘ fun j => WorkerEvent.SyncProgress aid .Contacts (j + 1) (some cs.length))
        = (some ∘ fun j : Nat => j + 1) from rfl]
    rw [List.filterMap_eq_map]
  rw [hfm]
  simp only [List.filterMap_cons, List.filterMap_nil, List.append_nil]
  exact List.pairwise_map.mpr
    (((List.pairwise_lt_range cs.length).filter _).imp fun hab => by omega)

/-- Witness for the amended C2 at the 120-item batch. -/
theorem contacts_upsert_progress_events_witness :
    (List.replicate 120
      ({ jid := "1@s", lid := none, phone_number := none, name := some "Ana",
         notify := none, verified_name := none, img_url := none,
         status := none } : ContactData)).length > 10
    ∧ ((List.range (List.replicate 120
        ({ jid := "1@s", lid := none, phone_number := none, name := some "Ana",
           notify := none, verified_name := none, img_url := none,
           status := none } : ContactData)).length).filter
        fun j => j % 50 == 0).length
      = ((List.replicate 120
        ({ jid := "1@s", lid := none, phone_number := none, name := some "Ana",
           notify := none, verified_name := none, img_url := none,
           status := none } : ContactData)).length + 49) / 50 :=
  ⟨by decide,
   (contacts_upsert_progress_events Db.empty 0 "acme" (List.replicate 120
      { jid := "1@s", lid := none, phone_number := none, name := some "Ana",
        notify := none, verified_name := none, img_url := none,
        status := none }) (by decide)).2.1⟩

/-! ## Claim C8: a persistence failure aborts the batch, not the pipeline -/

/-- A batch loop whose k-th write fails performs exactly the writes of the
first k items, emits exactly the progress events of those items, and reports
failure. -/
theorem batchLoop_fail {α : Type} (step : Db → α → Db)
    (progress : Nat → List WorkerEvent) (k : Nat) :
    ∀ (xs : List α) (db : Db) (i : Nat), i ≤ k → k - i < xs.length →
    batchLoop step progress (some k) db xs i
      = ((xs.take (k - i)).foldl step db,
         ((List.range' i (k - i)).map progress).flatten, false) := by
  intro xs
  induction xs with
  | nil =>
    intro db i hik hlen
    simp at hlen
  | cons x t ih =>
    intro db i hik hlen
    by_cases hik' : i = k
    · subst hik'
      simp [batchLoop]
    · have h1 : i + 1 ≤ k := by omega
      have hki : k - i = (k - (i + 1)) + 1 := by omega
      have h2 : k - (i + 1) < t.length := by
        simp only [List.length_cons] at hlen
        omega
      have hne : ¬ ((some k : Option Nat) = some i) := by
        simp
        omega
      simp only [batchLoop, if_neg hne]
      rw [ih (step db x) (i + 1) h1 h2, hki, List.take_succ_cons,
        List.range'_succ, List.foldl_cons, List.map_cons, List.flatten_cons]

/-- One pipeline step: the handler runs on the head event, and whatever its
success flag, the tail of the stream is processed on the resulting store, as
the spawned loop in TinaWorker::start only logs handler errors. -/
theorem processEvents_cons (now : Int) (db : Db) (e : IpcEvent)
    (failAt : Option Nat) (rest : List (IpcEvent × Option Nat)) :
    processEvents now db ((e, failAt) :: rest)
      = ((processEvents now (handle_ipc_event db now failAt e).1 rest).1,
         (handle_ipc_event db now failAt e).2.1
           ++ (processEvents now (handle_ipc_event db now failAt e).1 rest).2) := by
  rcases hev : handle_ipc_event db now failAt e with ⟨db1, evs, ok⟩
  rcases hrest : processEvents now db1 rest with ⟨db2, evs2⟩
  simp [processEvents, hev, hrest]

/-- The C8 property: with the write of item index k failing, each of the five
bulk handlers persists exactly the items before k, publishes only the events
due before the failure (never the completion pair), and returns failure; and
the pipeline still processes the next stream event on the store left behind
by the failed batch. -/
def batchFailureBehavior (db : Db) (now : Int) (aid : String) (k : Nat)
    (cs : List ContactData) (gs : List GroupData) (ms : List MessageData)
    (e2 : IpcEvent) (f2 : Option Nat) (rest : List (IpcEvent × Option Nat)) : Prop :=
  handle_ipc_event db now (some k) (.ContactsUpsert aid cs)
    = ((cs.take k).foldl (contactStep aid now) db,
       .SyncStarted aid .Contacts ::
         ((List.range' 0 k).map (contactsProgress aid cs.length)).flatten, false)
  ∧ handle_ipc_event db now (some k) (.ContactsUpdate aid cs)
    = ((cs.take k).foldl (contactStep aid now) db, [], false)
  ∧ handle_ipc_event db now (some k) (.GroupsUpsert aid gs)
    = ((gs.take k).foldl (groupUpsertStep aid now) db,
       [.SyncStarted aid .Groups], false)
  ∧ handle_ipc_event db now (some k) (.GroupsUpdate aid gs)
    = ((gs.take k).foldl (groupUpdateStep aid now) db, [], false)
  ∧ handle_ipc_event db now (some k) (.MessagesUpsert aid ms)
    = ((ms.take k).foldl (messageStep aid now) db,
       .SyncStarted aid .Messages ::
         ((List.range' 0 k).map (messagesProgress aid ms.length)).flatten, false)
  ∧ processEvents now db ((.MessagesUpsert aid ms, some k) :: (e2, f2) :: rest)
    = ((processEvents now
          (handle_ipc_event db now (some k) (.MessagesUpsert aid ms)).1
          ((e2, f2) :: rest)).1,
       (handle_ipc_event db now (some k) (.MessagesUpsert aid ms)).2.1
         ++ (processEvents now
              (handle_ipc_event db now (some k) (.MessagesUpsert aid ms)).1
              ((e2, f2) :: rest)).2)

/-- C8: when persisting item k of a bulk batch fails, no later item of that
batch is persisted and no further events of that batch are published — the
handler aborts with an error — yet the pipeline task keeps going and the
next stream event is still processed. -/
theorem batch_failure_aborts_batch_not_pipeline (db : Db) (now : Int)
    (aid : String) (k : Nat) (cs : List ContactData) (gs : List GroupData)
    (ms : List MessageData) (e2 : IpcEvent) (f2 : Option Nat)
    (rest : List (IpcEvent × Option Nat))
    (hc : k < cs.length) (hg : k < gs.length) (hm : k < ms.length) :
    batchFailureBehavior db now aid k cs gs ms e2 f2 rest := by
  have hnil : ∀ (l : List Nat), (l.map noProgress).flatten = [] := by
    intro l
    induction l with
    | nil => rfl
    | cons a t ih => simp [noProgress, ih]
  refine ⟨?_, ?_, ?_, ?_, ?_, processEvents_cons now db _ (some k) ((e2, f2) :: rest)⟩
  · have hb := batchLoop_fail (contactStep aid now) (contactsProgress aid cs.length)
      k cs db 0 (Nat.zero_le k) (by simpa using hc)
    simp only [handle_ipc_event]
    rw [hb]
    simp
  · have hb := batchLoop_fail (contactStep aid now) noProgress
      k cs db 0 (Nat.zero_le k) (by simpa using hc)
    simp only [handle_ipc_event]
    rw [hb]
    simp [hnil]
  · have hb := batchLoop_fail (groupUpsertStep aid now) noProgress
      k gs db 0 (Nat.zero_le k) (by simpa using hg)
    simp only [handle_ipc_event]
    rw [hb]
    simp [hnil]
  · have hb := batchLoop_fail (groupUpdateStep aid now) noProgress
      k gs db 0 (Nat.zero_le k) (by simpa using hg)
    simp only [handle_ipc_event]
    rw [hb]
    simp [hnil]
  · have hb := batchLoop_fail (messageStep aid now) (messagesProgress aid ms.length)
      k ms db 0 (Nat.zero_le k) (by simpa using hm)
    simp only [handle_ipc_event]
    rw [hb]
    simp

/-- Witness for C8: two-item batches whose second write fails, followed by a
Ready event that the pipeline still processes. -/
theorem batch_failure_aborts_batch_not_pipeline_witness :
    1 < ([c1message, c1message] : List MessageData).length
    ∧ 1 < ([c3group, c3group] : List GroupData).length
    ∧ batchFailureBehavior sampleDb 7 "acme" 1
        [{ jid := "1@s", lid := none, phone_number := none, name := some "Ana",
           notify := none, verified_name := none, img_url := none, status := none },
         { jid := "2@s", lid := none, phone_number := none, name := some "Bob",
           notify := none, verified_name := none, img_url := none, status := none }]
        [c3group, c3group] [c1message, c1message] (.Ready "") none [] :=
  ⟨by decide, by decide,
   batch_failure_aborts_batch_not_pipeline sampleDb 7 "acme" 1 _ _ _ (.Ready "")
     none [] (by decide) (by decide) (by decide)⟩

/-! ## Claim C6: envelope round-trip

decode after encode is the identity on every variant, with one exception
that serde forces: an Option(serde_json::Value) field serializes Some(Null)
and None to the same wire text (null), and deserialization maps null back to
None.  The only such field is data of CommandResult.
-/

/-- Option(String) fields survive encode then decode. -/
theorem decodeOptStr_encodeOptStr (o : Option String) :
    decodeOptStr (some (encodeOptStr o)) = some o := by
  cases o <;> rfl

/-- Option(Value) fields survive encode then decode unless they hold the
JSON null value. -/
theorem decodeOptJson_encodeOptJson (d : Option Json) (h : d ≠ some Json.null) :
    decodeOptJson (some (encodeOptJson d)) = some d := by
  match d with
  | none => rfl
  | some Json.null => exact absurd rfl h
  | some (Json.bool b) => rfl
  | some (Json.num n) => rfl
  | some (Json.str s) => rfl
  | some (Json.arr xs) => rfl
  | some (Json.obj fs) => rfl

/-- A ParticipantData value survives encode then decode. -/
theorem participant_roundtrip (p : ParticipantData) :
    ParticipantData.fromJson p.toJson = some p := by
  rcases p with ⟨id, admin, pn⟩
  cases admin <;> cases pn <;> rfl

/-- A ContactData value survives encode then decode. -/
theorem contact_roundtrip (c : ContactData) :
    ContactData.fromJson c.toJson = some c := by
  rcases c with ⟨jid, lid, pn, nm, nt, vn, iu, st⟩
  cases lid <;> cases pn <;> cases nm <;> cases nt <;> cases vn <;> cases iu <;>
    cases st <;> rfl

/-- A MessageData value survives encode then decode. -/
theorem message_roundtrip (m : MessageData) :
    MessageData.fromJson m.toJson = some m := by
  rcases m with ⟨mid, cj, sj, ct, mt, ts, ifm, rj⟩
  cases ct <;> cases rj <;> cases ifm <;> rfl

/-- An encoded array of values decodes elementwise back to the list. -/
theorem decodeList_map {α : Type} (f : α → Json) (g : Json → Option α)
    (hg : ∀ a, g (f a) = some a) (l : List α) :
    decodeList g (Json.arr (l.map f)) = some l := by
  simp only [decodeList]
  induction l with
  | nil => rfl
  | cons a t ih => simp [decodeListAux, hg, ih]

/-- A GroupData value survives encode then decode. -/
theorem group_roundtrip (g : GroupData) : GroupData.fromJson g.toJson = some g := by
  rcases g with ⟨jid, subject, owner, description, participants⟩
  have hp : decodeList ParticipantData.fromJson
      (Json.arr (participants.map ParticipantData.toJson)) = some participants :=
    decodeList_map _ _ participant_roundtrip participants
  cases subject <;> cases owner <;> cases description <;>
    simp [GroupData.fromJson, GroupData.toJson, getStr, Json.getField,
      Json.asString, decodeOptStr, encodeOptStr, List.lookup, hp]

/-- The round-trip hypothesis: the content is not a CommandResult holding
Some(Null) in its data field, the one shape serde cannot bring back. -/
def dataRoundTrippable : IpcMessageContent → Prop
  | .event (.CommandResult _ _ data _) => data ≠ some Json.null
  | _ => True

/-- C6 amended: decode of encode is the identity on every Command variant and
every Event variant, for all field values, except that a CommandResult whose
data field is Some of JSON null comes back with data = None; under the
hypothesis that the content is not of that one shape, the round-trip is
exact. -/
theorem ipc_roundtrip (m : IpcMessage) (h : dataRoundTrippable m.content) :
    IpcMessage.decode (IpcMessage.encode m) = some m := by
  rcases m with ⟨id, content⟩
  rcases content with c | e
  · cases c <;> try rfl
    rename_i aid cj lim
    cases cj <;> rfl
  · cases e <;> try rfl
    case Connected aid pn => cases pn <;> rfl
    case Error aid err => cases aid <;> rfl
    case ContactsUpsert aid cs =>
      have hc : decodeListAux ContactData.fromJson (cs.map ContactData.toJson)
          = some cs := by
        simpa [decodeList] using
          decodeList_map ContactData.toJson ContactData.fromJson contact_roundtrip cs
      have hev : IpcEvent.fromJson
          (IpcMessage.encode ⟨id, .event (.ContactsUpsert aid cs)⟩)
          = some (.ContactsUpsert aid cs) := by
        show (decodeListAux ContactData.fromJson (cs.map ContactData.toJson)).bind
          (fun cs2 => some (IpcEvent.ContactsUpsert aid cs2))
          = some (.ContactsUpsert aid cs)
        rw [hc]
        rfl
      show ((IpcEvent.fromJson
          (IpcMessage.encode ⟨id, .event (.ContactsUpsert aid cs)⟩)).map
          IpcMessageContent.event).bind
          (fun content => some ({ id := id, content := content } : IpcMessage))
          = some ({ id := id, content := .event (.ContactsUpsert aid cs) } : IpcMessage)
      rw [hev]
      rfl
    case ContactsUpdate aid cs =>
      have hc : decodeListAux ContactData.fromJson (cs.map ContactData.toJson)
          = some cs := by
        simpa [decodeList] using
          decodeList_map ContactData.toJson ContactData.fromJson contact_roundtrip cs
      have hev : IpcEvent.fromJson
          (IpcMessage.encode ⟨id, .event (.ContactsUpdate aid cs)⟩)
          = some (.ContactsUpdate aid cs) := by
        show (decodeListAux ContactData.fromJson (cs.map ContactData.toJson)).bind
          (fun cs2 => some (IpcEvent.ContactsUpdate aid cs2))
          = some (.ContactsUpdate aid cs)
        rw [hc]
        rfl
      show ((IpcEvent.fromJson
          (IpcMessage.encode ⟨id, .event (.ContactsUpdate aid cs)⟩)).map
          IpcMessageContent.event).bind
          (fun content => some ({ id := id, content := content } : IpcMessage))
          = some ({ id := id, content := .event (.ContactsUpdate aid cs) } : IpcMessage)
      rw [hev]
      rfl
    case GroupsUpsert aid gs =>
      have hg : decodeListAux GroupData.fromJson (gs.map GroupData.toJson)
          = some gs := by
        simpa [decodeList] using
          decodeList_map GroupData.toJson GroupData.fromJson group_roundtrip gs
      have hev : IpcEvent.fromJson
          (IpcMessage.encode ⟨id, .event (.GroupsUpsert aid gs)⟩)
          = some (.GroupsUpsert aid gs) := by
        show (decodeListAux GroupData.fromJson (gs.map GroupData.toJson)).bind
          (fun gs2 => some (IpcEvent.GroupsUpsert aid gs2))
          = some (.GroupsUpsert aid gs)
        rw [hg]
        rfl
      show ((IpcEvent.fromJson
          (IpcMessage.encode ⟨id, .event (.GroupsUpsert aid gs)⟩)).map
          IpcMessageContent.event).bind
          (fun content => some ({ id := id, content := content } : IpcMessage))
          = some ({ id := id, content := .event (.GroupsUpsert aid gs) } : IpcMessage)
      rw [hev]
      rfl
    case GroupsUpdate aid gs =>
      have hg : decodeListAux GroupData.fromJson (gs.map GroupData.toJson)
          = some gs := by
        simpa [decodeList] using
          decodeList_map GroupData.toJson GroupData.fromJson group_roundtrip gs
      have hev : IpcEvent.fromJson
          (IpcMessage.encode ⟨id, .event (.GroupsUpdate aid gs)⟩)
          = some (.GroupsUpdate aid gs) := by
        show (decodeListAux GroupData.fromJson (gs.map GroupData.toJson)).bind
          (fun gs2 => some (IpcEvent.GroupsUpdate aid gs2))
          = some (.GroupsUpdate aid gs)
        rw [hg]
        rfl
      show ((IpcEvent.fromJson
          (IpcMessage.encode ⟨id, .event (.GroupsUpdate aid gs)⟩)).map
          IpcMessageContent.event).bind
          (fun content => some ({ id := id, content := content } : IpcMessage))
          = some ({ id := id, content := .event (.GroupsUpdate aid gs) } : IpcMessage)
      rw [hev]
      rfl
    case MessagesUpsert aid ms =>
      have hm : decodeListAux MessageData.fromJson (ms.map MessageData.toJson)
          = some ms := by
        simpa [decodeList] using
          decodeList_map MessageData.toJson MessageData.fromJson message_roundtrip ms
      have hev : IpcEvent.fromJson
          (IpcMessage.encode ⟨id, .event (.MessagesUpsert aid ms)⟩)
          = some (.MessagesUpsert aid ms) := by
        show (decodeListAux MessageData.fromJson (ms.map MessageData.toJson)).bind
          (fun ms2 => some (IpcEvent.MessagesUpsert aid ms2))
          = some (.MessagesUpsert aid ms)
        rw [hm]
        rfl
      show ((IpcEvent.fromJson
          (IpcMessage.encode ⟨id, .event (.MessagesUpsert aid ms)⟩)).map
          IpcMessageContent.event).bind
          (fun content => some ({ id := id, content := content } : IpcMessage))
          = some ({ id := id, content := .event (.MessagesUpsert aid ms) } : IpcMessage)
      rw [hev]
      rfl
    case CommandResult cid success data err =>
      have hd : data ≠ some Json.null := h
      rcases data with _ | v
      · cases err <;> rfl
      · cases v
        case null => exact absurd rfl hd
        all_goals cases err <;> rfl

/-- C6 counterexample: a CommandResult whose data field is Some of JSON null
encodes to the same line as data = None, and decoding yields data = None, so
decode of encode is not the identity on this variant value. -/
theorem command_result_some_null_breaks_roundtrip :
    IpcMessage.decode (IpcMessage.encode
      ⟨"1", .event (.CommandResult "c" true (some Json.null) none)⟩)
      = some ⟨"1", .event (.CommandResult "c" true none none)⟩
    ∧ IpcMessage.decode (IpcMessage.encode
      ⟨"1", .event (.CommandResult "c" true (some Json.null) none)⟩)
      ≠ some ⟨"1", .event (.CommandResult "c" true (some Json.null) none)⟩ := by
  have h1 : IpcMessage.decode (IpcMessage.encode
      ⟨"1", .event (.CommandResult "c" true (some Json.null) none)⟩)
      = some ⟨"1", .event (.CommandResult "c" true none none)⟩ := rfl
  refine ⟨h1, ?_⟩
  intro hcontra
  rw [h1] at hcontra
  simp at hcontra

/-- Witness for the amended C6 at a concrete envelope: the Shutdown command
round-trips exactly, its content being trivially outside the excluded shape. -/
theorem ipc_roundtrip_witness :
    dataRoundTrippable (IpcMessageContent.command IpcCommand.Shutdown)
    ∧ IpcMessage.decode (IpcMessage.encode ⟨"1", .command .Shutdown⟩)
      = some ⟨"1", .command .Shutdown⟩ :=
  ⟨trivial, ipc_roundtrip ⟨"1", .command .Shutdown⟩ trivial⟩
